import Mathlib

/-!
Verification of the deer-flow settings/flow store
(src/web/src/core/store/settings-store.ts) and its settings API client.

The TypeScript store is shallowly embedded: the zustand store state becomes
an explicit `SettingsState` value, every mutating export becomes a pure
function `SettingsState → ... → SettingsState`, nondeterministic inputs
(`nanoid()` results, `new Date().toISOString()` timestamps) become explicit
parameters, and JS `undefined`-able values become `Option`.

The multi-kilobyte default prompt templates of `DEFAULT_PROMPTS` are
abbreviated to their opening sentences: no verified property inspects the
template text, only which field it is stored in.
-/

namespace DeerFlow

/-- The closed set of agent-role keys, `keyof Flow["prompts"]`. -/
inductive Agent where
  | coordinator
  | planner
  | researcher
  | coder
  | reporter
deriving DecidableEq, Repr

/-- The `prompts` record of a `Flow`. -/
structure Prompts where
  coordinator : String
  planner : String
  researcher : String
  coder : String
  reporter : String
deriving DecidableEq, Repr

/-- The `reportStyle` enum of four string literals. -/
inductive ReportStyle where
  | academic
  | popular_science
  | news
  | social_media
deriving DecidableEq, Repr

/-- The `generalSettings` record of a `Flow`.  JS numbers carry no
arithmetic in the store, so they are embedded as `Int`. -/
structure GeneralSettings where
  autoAcceptedPlan : Bool
  enableDeepThinking : Bool
  enableBackgroundInvestigation : Bool
  maxPlanIterations : Int
  maxStepNum : Int
  maxSearchResults : Int
  reportStyle : ReportStyle
deriving DecidableEq, Repr

/-- The `Flow` type of settings-store.ts. -/
structure Flow where
  id : String
  name : String
  isDefault : Bool
  description : Option String
  prompts : Prompts
  generalSettings : GeneralSettings
  createdAt : String
  updatedAt : String
deriving DecidableEq, Repr

/-- A tool descriptor exposed by an MCP server (name + description). -/
structure MCPToolMetadata where
  name : String
  description : String
deriving DecidableEq, Repr

/-- Modelled from the spec: the MCP metadata module (`../mcp`) is not under
src/, only its callers are.  Per the spec data model an MCP server
connection has a name, a transport kind (a local-process transport with a
command + argument list + environment variables, or a network transport
with a URL + environment variables), an enabled flag, a set of exposed
tool descriptors and timestamps; settings-store.ts additionally reads the
fields `transport`, `env`, `command`, `args`, `url`, `enabled`, `tools`
and discriminates on `transport === "stdio"`. -/
structure MCPServerMetadata where
  name : String
  transport : String
  command : String
  args : List String
  url : String
  env : List (String × String)
  enabled : Bool
  tools : List MCPToolMetadata
  createdAt : String
  updatedAt : String
deriving DecidableEq, Repr

/-- The `mcp` sub-object of the settings state. -/
structure Mcp where
  servers : List MCPServerMetadata
deriving DecidableEq, Repr

/-- The `SettingsState` type: the root settings document. -/
structure SettingsState where
  flows : List Flow
  activeFlowId : String
  mcp : Mcp
deriving DecidableEq, Repr

/-- `DEFAULT_PROMPTS` (template bodies abbreviated, see file header). -/
def DEFAULT_PROMPTS : Prompts :=
  { coordinator := "You are DeerFlow, a friendly AI assistant. You specialize in handling greetings and small talk, while handing off research tasks to a specialized planner."
    planner := "You are a professional Deep Researcher. Study and plan information gathering tasks using a team of specialized agents to collect comprehensive data."
    researcher := "You are researcher agent that is managed by supervisor agent."
    coder := "You are coder agent that is managed by supervisor agent. You are a professional software engineer proficient in Python scripting."
    reporter := "You are a professional reporter responsible for writing clear, comprehensive reports based ONLY on provided information and verifiable facts." }

/-- `DEFAULT_GENERAL_SETTINGS`. -/
def DEFAULT_GENERAL_SETTINGS : GeneralSettings :=
  { autoAcceptedPlan := false
    enableDeepThinking := false
    enableBackgroundInvestigation := false
    maxPlanIterations := 1
    maxStepNum := 3
    maxSearchResults := 3
    reportStyle := .academic }

/-- `createDefaultFlow`; `new Date().toISOString()` becomes the explicit
`now` parameter. -/
def createDefaultFlow (now : String) : Flow :=
  { id := "default"
    name := "Default Flow"
    isDefault := true
    description := some "The original DeerFlow research workflow with standard settings and prompts."
    prompts := DEFAULT_PROMPTS
    generalSettings := DEFAULT_GENERAL_SETTINGS
    createdAt := now
    updatedAt := now }

/-- `DEFAULT_SETTINGS`; parameterized by the module-load timestamp. -/
def DEFAULT_SETTINGS (now : String) : SettingsState :=
  { flows := [createDefaultFlow now]
    activeFlowId := "default"
    mcp := { servers := [] } }

/-- `getActiveFlow`: exact match on `activeFlowId`, else the flow with
`isDefault`, else the first flow, else a fresh default flow. -/
def getActiveFlow (now : String) (s : SettingsState) : Flow :=
  match s.flows.find? (fun flow => flow.id == s.activeFlowId) with
  | some f => f
  | none =>
    match s.flows.find? (fun flow => flow.isDefault) with
    | some f => f
    | none =>
      match s.flows.head? with
      | some f => f
      | none => createDefaultFlow now

/-- `createFlow(name, basedOn?)`: returns the new flow and the updated
state.  The `nanoid()` output and the timestamp are the explicit
parameters `freshId` and `now`. -/
def createFlow (s : SettingsState) (name : String) (basedOn : Option Flow)
    (freshId now : String) : Flow × SettingsState :=
  let baseFlow := basedOn.getD (getActiveFlow now s)
  let newFlow : Flow :=
    { id := freshId
      name := name
      isDefault := false
      description := some ("Custom flow based on " ++ baseFlow.name)
      prompts := baseFlow.prompts
      generalSettings := baseFlow.generalSettings
      createdAt := now
      updatedAt := now }
  (newFlow,
    { s with flows := s.flows ++ [newFlow], activeFlowId := newFlow.id })

/-- `deleteFlow(flowId)`: refuses if the first flow whose id matches is
the default flow (`flowToDelete?.isDefault`); otherwise removes every
flow with that id and, if the deleted flow was active, falls back to the
default flow, else the first remaining flow, else the literal id
"default". -/
def deleteFlow (s : SettingsState) (flowId : String) : SettingsState :=
  let flowToDelete := s.flows.find? (fun flow => flow.id == flowId)
  if (flowToDelete.map (fun f => f.isDefault)).getD false then s
  else
    let remainingFlows := s.flows.filter (fun flow => flow.id != flowId)
    let newActiveFlowId :=
      if s.activeFlowId == flowId then
        ((remainingFlows.find? (fun flow => flow.isDefault)).map (fun f => f.id)).getD
          ((remainingFlows.head?.map (fun f => f.id)).getD "default")
      else s.activeFlowId
    { s with flows := remainingFlows, activeFlowId := newActiveFlowId }

/-- `setActiveFlow(flowId)`: no-op when the id is not present. -/
def setActiveFlow (s : SettingsState) (flowId : String) : SettingsState :=
  if s.flows.any (fun flow => flow.id == flowId) then
    { s with activeFlowId := flowId }
  else s

/-- `Partial<Omit<Flow, 'id' | 'isDefault' | 'createdAt'>>`: the update
record accepted by `updateFlow`.  A `some` field is a key present in the
update object. -/
structure FlowUpdate where
  name : Option String := none
  description : Option String := none
  prompts : Option Prompts := none
  generalSettings : Option GeneralSettings := none
  updatedAt : Option String := none
deriving DecidableEq, Repr

/-- The spread `{ ...flow, ...updates, updatedAt: now }`: `id`,
`isDefault` and `createdAt` cannot appear in the update, and `updatedAt`
is overwritten with `now` after the spread. -/
def applyFlowUpdate (flow : Flow) (u : FlowUpdate) (now : String) : Flow :=
  { id := flow.id
    name := u.name.getD flow.name
    isDefault := flow.isDefault
    description := match u.description with
      | some d => some d
      | none => flow.description
    prompts := u.prompts.getD flow.prompts
    generalSettings := u.generalSettings.getD flow.generalSettings
    createdAt := flow.createdAt
    updatedAt := now }

/-- `updateFlow(flowId, updates)`. -/
def updateFlow (s : SettingsState) (flowId : String) (u : FlowUpdate)
    (now : String) : SettingsState :=
  { s with
    flows := s.flows.map (fun flow =>
      if flow.id == flowId then applyFlowUpdate flow u now else flow) }

/-- The shared body of every targeted mutator (`setPrompt`,
`resetPrompt`, `resetAllPrompts`, the `generalSettings` field setters and
the two template fixers): defaults the target to the active flow, maps
`g` over the matching flow and re-stamps `updatedAt`. -/
def updateTargetedFlow (s : SettingsState) (flowId : Option String)
    (g : Flow → Flow) (now : String) : SettingsState :=
  let targetFlowId := flowId.getD s.activeFlowId
  { s with
    flows := s.flows.map (fun flow =>
      if flow.id == targetFlowId then { g flow with updatedAt := now } else flow) }

/-- Field update `{ ...p, [agentName]: content }`. -/
def Prompts.setAgent (p : Prompts) (a : Agent) (content : String) : Prompts :=
  match a with
  | .coordinator => { p with coordinator := content }
  | .planner => { p with planner := content }
  | .researcher => { p with researcher := content }
  | .coder => { p with coder := content }
  | .reporter => { p with reporter := content }

/-- Field read `DEFAULT_PROMPTS[agentName]`. -/
def Prompts.agent (p : Prompts) (a : Agent) : String :=
  match a with
  | .coordinator => p.coordinator
  | .planner => p.planner
  | .researcher => p.researcher
  | .coder => p.coder
  | .reporter => p.reporter

/-- `setPrompt(agentName, content, flowId?)`. -/
def setPrompt (a : Agent) (content : String) (flowId : Option String)
    (now : String) (s : SettingsState) : SettingsState :=
  updateTargetedFlow s flowId
    (fun flow => { flow with prompts := flow.prompts.setAgent a content }) now

/-- `resetPrompt(agentName, flowId?)`. -/
def resetPrompt (a : Agent) (flowId : Option String) (now : String)
    (s : SettingsState) : SettingsState :=
  updateTargetedFlow s flowId
    (fun flow =>
      { flow with prompts := flow.prompts.setAgent a (DEFAULT_PROMPTS.agent a) }) now

/-- `resetAllPrompts(flowId?)`. -/
def resetAllPrompts (flowId : Option String) (now : String)
    (s : SettingsState) : SettingsState :=
  updateTargetedFlow s flowId (fun flow => { flow with prompts := DEFAULT_PROMPTS }) now

/-- `setReportStyle(value, flowId?)`. -/
def setReportStyle (v : ReportStyle) (flowId : Option String) (now : String)
    (s : SettingsState) : SettingsState :=
  updateTargetedFlow s flowId
    (fun flow =>
      { flow with generalSettings := { flow.generalSettings with reportStyle := v } }) now

/-- `setEnableDeepThinking(value, flowId?)`. -/
def setEnableDeepThinking (v : Bool) (flowId : Option String) (now : String)
    (s : SettingsState) : SettingsState :=
  updateTargetedFlow s flowId
    (fun flow =>
      { flow with generalSettings := { flow.generalSettings with enableDeepThinking := v } }) now

/-- `setEnableBackgroundInvestigation(value, flowId?)`. -/
def setEnableBackgroundInvestigation (v : Bool) (flowId : Option String)
    (now : String) (s : SettingsState) : SettingsState :=
  updateTargetedFlow s flowId
    (fun flow =>
      { flow with
        generalSettings := { flow.generalSettings with enableBackgroundInvestigation := v } }) now

/-- `setMaxPlanIterations(value, flowId?)`. -/
def setMaxPlanIterations (v : Int) (flowId : Option String) (now : String)
    (s : SettingsState) : SettingsState :=
  updateTargetedFlow s flowId
    (fun flow =>
      { flow with generalSettings := { flow.generalSettings with maxPlanIterations := v } }) now

/-- `setMaxStepNum(value, flowId?)`. -/
def setMaxStepNum (v : Int) (flowId : Option String) (now : String)
    (s : SettingsState) : SettingsState :=
  updateTargetedFlow s flowId
    (fun flow =>
      { flow with generalSettings := { flow.generalSettings with maxStepNum := v } }) now

/-- `setMaxSearchResults(value, flowId?)`. -/
def setMaxSearchResults (v : Int) (flowId : Option String) (now : String)
    (s : SettingsState) : SettingsState :=
  updateTargetedFlow s flowId
    (fun flow =>
      { flow with generalSettings := { flow.generalSettings with maxSearchResults := v } }) now

/-- `fixBrokenTemplates(flowId?)`. -/
def fixBrokenTemplates (flowId : Option String) (now : String)
    (s : SettingsState) : SettingsState :=
  updateTargetedFlow s flowId (fun flow => { flow with prompts := DEFAULT_PROMPTS }) now

/-- `fixPlannerJsonFormat(flowId?)`. -/
def fixPlannerJsonFormat (flowId : Option String) (now : String)
    (s : SettingsState) : SettingsState :=
  updateTargetedFlow s flowId
    (fun flow =>
      { flow with prompts := { flow.prompts with planner := DEFAULT_PROMPTS.planner } }) now

/-- One call to a public mutating operation of the Flow Registry
(settings-store.ts exports), with its nondeterministic inputs (`nanoid`
output, timestamp) recorded in the operation. -/
inductive FlowOp where
  | create (name : String) (basedOn : Option Flow) (freshId now : String)
  | update (flowId : String) (u : FlowUpdate) (now : String)
  | delete (flowId : String)
  | setActive (flowId : String)
  | setPromptOp (a : Agent) (content : String) (flowId : Option String) (now : String)
  | resetPromptOp (a : Agent) (flowId : Option String) (now : String)
  | resetAllPromptsOp (flowId : Option String) (now : String)
  | setReportStyleOp (v : ReportStyle) (flowId : Option String) (now : String)
  | setEnableDeepThinkingOp (v : Bool) (flowId : Option String) (now : String)
  | setEnableBackgroundInvestigationOp (v : Bool) (flowId : Option String) (now : String)
  | setMaxPlanIterationsOp (v : Int) (flowId : Option String) (now : String)
  | setMaxStepNumOp (v : Int) (flowId : Option String) (now : String)
  | setMaxSearchResultsOp (v : Int) (flowId : Option String) (now : String)
  | fixBrokenTemplatesOp (flowId : Option String) (now : String)
  | fixPlannerJsonFormatOp (flowId : Option String) (now : String)

/-- Apply one registry operation to the store state. -/
def applyOp (s : SettingsState) : FlowOp → SettingsState
  | .create name basedOn freshId now => (createFlow s name basedOn freshId now).2
  | .update flowId u now => updateFlow s flowId u now
  | .delete flowId => deleteFlow s flowId
  | .setActive flowId => setActiveFlow s flowId
  | .setPromptOp a content flowId now => setPrompt a content flowId now s
  | .resetPromptOp a flowId now => resetPrompt a flowId now s
  | .resetAllPromptsOp flowId now => resetAllPrompts flowId now s
  | .setReportStyleOp v flowId now => setReportStyle v flowId now s
  | .setEnableDeepThinkingOp v flowId now => setEnableDeepThinking v flowId now s
  | .setEnableBackgroundInvestigationOp v flowId now => setEnableBackgroundInvestigation v flowId now s
  | .setMaxPlanIterationsOp v flowId now => setMaxPlanIterations v flowId now s
  | .setMaxStepNumOp v flowId now => setMaxStepNum v flowId now s
  | .setMaxSearchResultsOp v flowId now => setMaxSearchResults v flowId now s
  | .fixBrokenTemplatesOp flowId now => fixBrokenTemplates flowId now s
  | .fixPlannerJsonFormatOp flowId now => fixPlannerJsonFormat flowId now s

/-- Apply a sequence of registry operations, oldest first. -/
def applyOps (s : SettingsState) (ops : List FlowOp) : SettingsState :=
  ops.foldl applyOp s

/-- A call to `createFlow` or `deleteFlow` (the operation alphabet of the
single-default invariant claim). -/
inductive CDOp where
  | create (name : String) (basedOn : Option Flow) (freshId now : String)
  | delete (flowId : String)

/-- Interpret a `createFlow`/`deleteFlow` call as a registry operation. -/
def CDOp.toFlowOp : CDOp → FlowOp
  | .create name basedOn freshId now => .create name basedOn freshId now
  | .delete flowId => .delete flowId

/-- No default flow is preceded by a distinct flow carrying the same id
(so `find?` on a default flow id always reaches the default flow first). -/
def DefaultFirst (flows : List Flow) : Prop :=
  flows.Pairwise (fun a b => b.isDefault = true → a.id ≠ b.id)

/-- The registry invariant: exactly one flow has `isDefault` and no flow
with the same id precedes it. -/
def Inv (s : SettingsState) : Prop :=
  (s.flows.filter (fun f => f.isDefault)).length = 1 ∧ DefaultFirst s.flows

/-- `find?` returns the first match: any other match is related to the
returned element by a pairwise relation on the list. -/
theorem find?_first {α : Type} {R : α → α → Prop} {p : α → Bool} {l : List α}
    {f d : α} (hR : l.Pairwise R) (hf : l.find? p = some f) (hd : d ∈ l)
    (hpd : p d = true) : d = f ∨ R f d := by
  induction l with
  | nil => simp at hf
  | cons x xs ih =>
    by_cases hx : p x
    · rw [List.find?_cons_of_pos _ hx] at hf
      cases hf
      rcases List.mem_cons.mp hd with rfl | hdxs
      · exact Or.inl rfl
      · exact Or.inr ((List.pairwise_cons.mp hR).1 d hdxs)
    · rw [List.find?_cons_of_neg _ hx] at hf
      rcases List.mem_cons.mp hd with rfl | hdxs
      · exact absurd hpd hx
      · exact ih (List.pairwise_cons.mp hR).2 hf hdxs

/-- A pointwise map that preserves `id` and `isDefault` preserves the
registry invariant on the flow list. -/
theorem inv_map_flows {flows : List Flow} {g : Flow → Flow}
    (hg : ∀ f, (g f).id = f.id ∧ (g f).isDefault = f.isDefault)
    (h1 : (flows.filter (fun f => f.isDefault)).length = 1)
    (h2 : DefaultFirst flows) :
    ((flows.map g).filter (fun f => f.isDefault)).length = 1 ∧
      DefaultFirst (flows.map g) := by
  constructor
  · rw [List.filter_map]
    rw [List.length_map]
    have : flows.filter ((fun f => f.isDefault) ∘ g) = flows.filter (fun f => f.isDefault) := by
      apply List.filter_congr
      intro a _
      simp [Function.comp, (hg a).2]
    rw [this, h1]
  · unfold DefaultFirst at h2 ⊢
    rw [List.pairwise_map]
    apply h2.imp_of_mem
    intro a b _ _ hab
    rw [(hg b).2, (hg a).1, (hg b).1]
    exact hab

/-- `createFlow` preserves the registry invariant (the new flow is not
default, and it is appended behind every existing flow). -/
theorem inv_createFlow {s : SettingsState} (h : Inv s)
    (name : String) (basedOn : Option Flow) (freshId now : String) :
    Inv (createFlow s name basedOn freshId now).2 := by
  obtain ⟨h1, h2⟩ := h
  constructor
  · simp only [createFlow, List.filter_append]
    simp [h1]
  · unfold DefaultFirst at h2 ⊢
    simp only [createFlow]
    rw [List.pairwise_append]
    refine ⟨h2, by simp, ?_⟩
    intro a _ b hb
    simp only [List.mem_singleton] at hb
    subst hb
    intro hfalse
    simp at hfalse

/-- `deleteFlow` preserves the registry invariant: the default flow is
never removed because `find?` reaches it before any same-id flow. -/
theorem inv_deleteFlow {s : SettingsState} (h : Inv s) (flowId : String) :
    Inv (deleteFlow s flowId) := by
  obtain ⟨h1, h2⟩ := h
  unfold deleteFlow
  cases hfind : s.flows.find? (fun flow => flow.id == flowId) with
  | none =>
    have hall : ∀ f ∈ s.flows, (f.id != flowId) = true := by
      intro f hf
      have := List.find?_eq_none.mp hfind f hf
      simpa using this
    have hfilter : s.flows.filter (fun flow => flow.id != flowId) = s.flows :=
      List.filter_eq_self.mpr hall
    simp only [Option.map_none', Option.getD_none, Bool.false_eq_true, if_false]
    constructor
    · simpa [hfilter] using h1
    · simpa [DefaultFirst, hfilter] using h2
  | some f =>
    by_cases hdef : f.isDefault
    · simp [hfind, hdef]
      exact ⟨h1, h2⟩
    · have hfd : ∀ d ∈ s.flows, d.isDefault = true → d.id ≠ flowId := by
        intro d hd hddef hdid
        have hpd : (d.id == flowId) = true := by simpa using hdid
        rcases find?_first h2 hfind hd hpd with rfl | hR
        · exact hdef (by simpa using hddef)
        · have hfid : f.id = flowId := by
            have := List.find?_some hfind
            simpa using this
          exact hR hddef (hfid.trans hdid.symm)
      have hdef' : f.isDefault = false := by simpa using hdef
      simp only [hfind, Option.map_some', Option.getD_some, hdef',
        Bool.false_eq_true, if_false]
      constructor
      · rw [List.filter_comm]
        have : (s.flows.filter (fun f => f.isDefault)).filter
            (fun flow => flow.id != flowId) = s.flows.filter (fun f => f.isDefault) := by
          apply List.filter_eq_self.mpr
          intro a ha
          have hadef : a.isDefault = true := List.of_mem_filter ha
          have hamem : a ∈ s.flows := List.mem_of_mem_filter ha
          simpa using hfd a hamem hadef
        rw [this, h1]
      · exact List.Pairwise.sublist (List.filter_sublist _) h2

/-- `updateTargetedFlow` preserves the registry invariant whenever its
field transformer leaves `id` and `isDefault` unchanged. -/
theorem inv_updateTargetedFlow {s : SettingsState} (h : Inv s)
    (flowId : Option String) {g : Flow → Flow} (now : String)
    (hg : ∀ f, (g f).id = f.id ∧ (g f).isDefault = f.isDefault) :
    Inv (updateTargetedFlow s flowId g now) := by
  obtain ⟨h1, h2⟩ := h
  unfold updateTargetedFlow
  exact inv_map_flows
    (g := fun flow =>
      if flow.id == flowId.getD s.activeFlowId then { g flow with updatedAt := now } else flow)
    (fun f => by by_cases hf : (f.id == flowId.getD s.activeFlowId) <;>
      simp [hf, (hg f).1, (hg f).2])
    h1 h2

/-- Every registry operation preserves the registry invariant. -/
theorem inv_applyOp {s : SettingsState} (h : Inv s) (op : FlowOp) :
    Inv (applyOp s op) := by
  cases op with
  | create name basedOn freshId now => exact inv_createFlow h name basedOn freshId now
  | update flowId u now =>
    obtain ⟨h1, h2⟩ := h
    unfold applyOp updateFlow
    exact inv_map_flows
      (fun f => by by_cases hf : (f.id == flowId) <;> simp [hf, applyFlowUpdate])
      h1 h2
  | delete flowId => exact inv_deleteFlow h flowId
  | setActive flowId =>
    obtain ⟨h1, h2⟩ := h
    unfold applyOp setActiveFlow
    by_cases hx : s.flows.any (fun flow => flow.id == flowId) <;> simp [hx] <;> exact ⟨h1, h2⟩
  | setPromptOp a content flowId now =>
    exact inv_updateTargetedFlow h flowId now (fun f => by simp)
  | resetPromptOp a flowId now =>
    exact inv_updateTargetedFlow h flowId now (fun f => by simp)
  | resetAllPromptsOp flowId now =>
    exact inv_updateTargetedFlow h flowId now (fun f => by simp)
  | setReportStyleOp v flowId now =>
    exact inv_updateTargetedFlow h flowId now (fun f => by simp)
  | setEnableDeepThinkingOp v flowId now =>
    exact inv_updateTargetedFlow h flowId now (fun f => by simp)
  | setEnableBackgroundInvestigationOp v flowId now =>
    exact inv_updateTargetedFlow h flowId now (fun f => by simp)
  | setMaxPlanIterationsOp v flowId now =>
    exact inv_updateTargetedFlow h flowId now (fun f => by simp)
  | setMaxStepNumOp v flowId now =>
    exact inv_updateTargetedFlow h flowId now (fun f => by simp)
  | setMaxSearchResultsOp v flowId now =>
    exact inv_updateTargetedFlow h flowId now (fun f => by simp)
  | fixBrokenTemplatesOp flowId now =>
    exact inv_updateTargetedFlow h flowId now (fun f => by simp)
  | fixPlannerJsonFormatOp flowId now =>
    exact inv_updateTargetedFlow h flowId now (fun f => by simp)

/-- Invariant preservation along any operation sequence. -/
theorem inv_applyOps {s : SettingsState} (h : Inv s) (ops : List FlowOp) :
    Inv (applyOps s ops) := by
  induction ops generalizing s with
  | nil => exact h
  | cons op ops ih => exact ih (inv_applyOp h op)

/-- The default settings state satisfies the registry invariant. -/
theorem inv_default (t0 : String) : Inv (DEFAULT_SETTINGS t0) := by
  constructor
  · simp [DEFAULT_SETTINGS, createDefaultFlow]
  · simp [DEFAULT_SETTINGS, DefaultFirst]

/-- A state reachable by registry operations has a nonempty flow list. -/
theorem flows_ne_nil_of_inv {s : SettingsState} (h : Inv s) : s.flows ≠ [] := by
  intro hnil
  have h1 := h.1
  rw [hnil] at h1
  simp at h1

/-- C1: starting from the default settings state, every sequence of
`createFlow`/`deleteFlow` calls leaves the registry with exactly one flow
whose `isDefault` is true.  The operations carry arbitrary names, basis
flows, `nanoid` outputs and timestamps. -/
theorem single_default_invariant (t0 : String) (ops : List CDOp) :
    ((applyOps (DEFAULT_SETTINGS t0) (ops.map CDOp.toFlowOp)).flows.filter
      (fun f => f.isDefault)).length = 1 :=
  (inv_applyOps (inv_default t0) (ops.map CDOp.toFlowOp)).1

/-- C2: in every state reachable from the default settings state via the
public Flow Registry operations, `getActiveFlow()` returns a member of
the `flows` collection.  The resolution order (exact `activeFlowId`
match, else the `isDefault` flow, else the first flow, else a synthesized
default) is the definition of `getActiveFlow`; reachable states never
fall through to the synthesized-default level. -/
theorem getActiveFlow_mem (t0 now : String) (ops : List FlowOp) :
    getActiveFlow now (applyOps (DEFAULT_SETTINGS t0) ops) ∈
      (applyOps (DEFAULT_SETTINGS t0) ops).flows := by
  have hne := flows_ne_nil_of_inv (inv_applyOps (inv_default t0) ops)
  set s := applyOps (DEFAULT_SETTINGS t0) ops with hs
  unfold getActiveFlow
  cases hf1 : s.flows.find? (fun flow => flow.id == s.activeFlowId) with
  | some f => exact List.mem_of_find?_eq_some hf1
  | none =>
    cases hf2 : s.flows.find? (fun flow => flow.isDefault) with
    | some f => exact List.mem_of_find?_eq_some hf2
    | none =>
      cases hf3 : s.flows.head? with
      | some f => exact List.mem_of_mem_head? hf3
      | none => exact absurd (List.head?_eq_none_iff.mp hf3) hne

/-- C4: in any state whose flow ids are pairwise distinct (the spec data
model calls `id` an opaque unique identifier, and every reachable state
satisfies it), deleting the id of a flow with `isDefault` leaves the
state completely unchanged. -/
theorem deleteFlow_default_noop (s : SettingsState) (d : Flow)
    (hmem : d ∈ s.flows) (hdef : d.isDefault = true)
    (hnodup : (s.flows.map Flow.id).Nodup) :
    deleteFlow s d.id = s := by
  have hsome : (s.flows.find? (fun flow => flow.id == d.id)).isSome := by
    rw [List.find?_isSome]
    exact ⟨d, hmem, by simp⟩
  obtain ⟨f, hfind⟩ := Option.isSome_iff_exists.mp hsome
  have hfmem : f ∈ s.flows := List.mem_of_find?_eq_some hfind
  have hfid : f.id = d.id := by simpa using List.find?_some hfind
  have hfd : f = d := List.inj_on_of_nodup_map hnodup hfmem hmem hfid
  unfold deleteFlow
  rw [hfind, hfd]
  simp [hdef]

/-- Closed witness for C4: deleting the default flow of the default
settings state is a no-op. -/
theorem deleteFlow_default_noop_witness :
    deleteFlow (DEFAULT_SETTINGS "t0") "default" = DEFAULT_SETTINGS "t0" := by
  have h := deleteFlow_default_noop (DEFAULT_SETTINGS "t0") (createDefaultFlow "t0")
    (by simp [DEFAULT_SETTINGS]) rfl (by simp [DEFAULT_SETTINGS])
  simpa [createDefaultFlow] using h

/-- C7: `createFlow(name, b)` with a fresh `nanoid` output returns a flow
whose `prompts` and `generalSettings` equal the basis flow at call time,
whose id differs from every existing flow id, with `isDefault = false`
and both timestamps stamped to the call time; the new flow is appended to
the collection and becomes the active flow. -/
theorem createFlow_spec (s : SettingsState) (name : String) (b : Flow)
    (freshId now : String) (hfresh : ∀ f ∈ s.flows, f.id ≠ freshId) :
    (createFlow s name (some b) freshId now).1.prompts = b.prompts ∧
    (createFlow s name (some b) freshId now).1.generalSettings = b.generalSettings ∧
    (createFlow s name (some b) freshId now).1.isDefault = false ∧
    (createFlow s name (some b) freshId now).1.createdAt = now ∧
    (createFlow s name (some b) freshId now).1.updatedAt = now ∧
    (∀ f ∈ s.flows, f.id ≠ (createFlow s name (some b) freshId now).1.id) ∧
    (createFlow s name (some b) freshId now).2.flows =
      s.flows ++ [(createFlow s name (some b) freshId now).1] ∧
    (createFlow s name (some b) freshId now).2.activeFlowId =
      (createFlow s name (some b) freshId now).1.id := by
  refine ⟨rfl, rfl, rfl, rfl, rfl, ?_, rfl, rfl⟩
  intro f hf
  exact hfresh f hf

/-- Closed witness for C7: duplicating the default flow of the default
settings state under the fresh id "f1". -/
theorem createFlow_spec_witness :
    (createFlow (DEFAULT_SETTINGS "t0") "Copy" (some (createDefaultFlow "t0")) "f1" "t1").1.isDefault = false ∧
    (createFlow (DEFAULT_SETTINGS "t0") "Copy" (some (createDefaultFlow "t0")) "f1" "t1").2.activeFlowId =
      (createFlow (DEFAULT_SETTINGS "t0") "Copy" (some (createDefaultFlow "t0")) "f1" "t1").1.id := by
  have h := createFlow_spec (DEFAULT_SETTINGS "t0") "Copy" (createDefaultFlow "t0") "f1" "t1"
    (by intro f hf; simp [DEFAULT_SETTINGS] at hf; subst hf; simp [createDefaultFlow])
  exact ⟨h.2.2.1, h.2.2.2.2.2.2.2⟩

/-- The `flows` key of a parsed persisted document: absent (or null,
falsy), present but not an array, or an array of flows. -/
inductive RawFlows where
  | absent
  | notArray
  | arr (flows : List Flow)
deriving DecidableEq, Repr

/-- A parsed persisted settings document as `loadSettings` inspects it:
possibly the legacy flat `general` + `prompts` shape, possibly missing
keys.  `none` stands for an absent (undefined) key. -/
structure RawDoc where
  general : Option GeneralSettings
  prompts : Option Prompts
  flows : RawFlows
  activeFlowId : Option String
  mcp : Option Mcp
deriving DecidableEq, Repr

/-- The `activeFlowId ?? default-id ?? first-id ?? "default"` reassignment
chain of `loadSettings`. -/
def reassignTarget (flows : List Flow) : String :=
  ((flows.find? (fun flow => flow.isDefault)).map (fun f => f.id)).getD
    ((flows.head?.map (fun f => f.id)).getD "default")

/-- The JS truthiness test `!settings.activeFlowId ||
!validFlowIds.includes(settings.activeFlowId)` (an absent id and the
empty string are both falsy). -/
def activeIdInvalid (a : Option String) (validFlowIds : List String) : Bool :=
  match a with
  | none => true
  | some x => x == "" || !(validFlowIds.contains x)

/-- The pure data transformation performed by `loadSettings` on a parsed
document: legacy-shape migration, default-flow insertion, active-id
repair, `mcp` defaulting, and the gross-invalidity fallback to
`DEFAULT_SETTINGS`.  Timestamps stamped during the run are the `now`
parameter. -/
def normalize (now : String) (d : RawDoc) : SettingsState :=
  match d.general, d.prompts, d.flows with
  | some general, some prompts, RawFlows.absent =>
    { flows := [{ id := "default"
                  name := "Default Flow"
                  isDefault := true
                  description := some "Migrated from your previous settings"
                  prompts := prompts
                  generalSettings := general
                  createdAt := now
                  updatedAt := now }]
      activeFlowId := "default"
      mcp := d.mcp.getD { servers := [] } }
  | _, _, _ =>
    match d.flows with
    | RawFlows.arr flows0 =>
      let flows1 :=
        if flows0.any (fun flow => flow.isDefault) then flows0
        else createDefaultFlow now :: flows0
      let validFlowIds := flows1.map Flow.id
      let activeFlowId :=
        if activeIdInvalid d.activeFlowId validFlowIds then reassignTarget flows1
        else d.activeFlowId.getD ""
      { flows := flows1
        activeFlowId := activeFlowId
        mcp := d.mcp.getD { servers := [] } }
    | _ => DEFAULT_SETTINGS now

/-- Re-parsing a persisted settings state: the serialized state has
`flows`, `activeFlowId` and `mcp` keys and no legacy keys. -/
def toRaw (s : SettingsState) : RawDoc :=
  { general := none
    prompts := none
    flows := RawFlows.arr s.flows
    activeFlowId := some s.activeFlowId
    mcp := some s.mcp }

/-- Computation rule: `normalize` on a document whose `flows` key is an
array. -/
theorem normalize_arr (now : String) (g : Option GeneralSettings)
    (p : Option Prompts) (flows0 : List Flow) (a : Option String)
    (m : Option Mcp) :
    normalize now ⟨g, p, RawFlows.arr flows0, a, m⟩ =
      { flows := if flows0.any (fun flow => flow.isDefault) then flows0
          else createDefaultFlow now :: flows0
        activeFlowId :=
          if activeIdInvalid a
              ((if flows0.any (fun flow => flow.isDefault) then flows0
                else createDefaultFlow now :: flows0).map Flow.id) then
            reassignTarget (if flows0.any (fun flow => flow.isDefault) then flows0
              else createDefaultFlow now :: flows0)
          else a.getD ""
        mcp := m.getD { servers := [] } } := by
  rcases g with _ | g <;> rcases p with _ | p <;> rfl

/-- The flow list produced by the default-flow existence check always
contains a default flow. -/
theorem hasDefault_arr (now : String) (flows0 : List Flow) :
    ((if flows0.any (fun flow => flow.isDefault) then flows0
      else createDefaultFlow now :: flows0).any (fun flow => flow.isDefault)) = true := by
  by_cases hany : flows0.any (fun flow => flow.isDefault) = true
  · rw [if_pos hany]
    exact hany
  · rw [if_neg hany]
    simp [createDefaultFlow]

/-- The active id produced by the active-flow validity check is either
valid for the flow list or equal to the reassignment target. -/
theorem active_ok_core (a : Option String) (flows1 : List Flow) :
    activeIdInvalid
        (some (if activeIdInvalid a (flows1.map Flow.id) then reassignTarget flows1
          else a.getD ""))
        (flows1.map Flow.id) = false ∨
      (if activeIdInvalid a (flows1.map Flow.id) then reassignTarget flows1
        else a.getD "") = reassignTarget flows1 := by
  by_cases hc : activeIdInvalid a (flows1.map Flow.id) = true
  · right
    rw [if_pos hc]
  · left
    rw [if_neg hc]
    rcases a with _ | x
    · exact absurd rfl hc
    · simp only [Bool.not_eq_true] at hc
      exact hc

/-- A state is a fixed point of normalization as soon as some flow is
default and its active id is either valid or already equal to the
reassignment target. -/
theorem normalize_fixed (now : String) (s : SettingsState)
    (hdef : s.flows.any (fun flow => flow.isDefault) = true)
    (hact : activeIdInvalid (some s.activeFlowId) (s.flows.map Flow.id) = false ∨
      s.activeFlowId = reassignTarget s.flows) :
    normalize now (toRaw s) = s := by
  obtain ⟨fl, aid, m⟩ := s
  show normalize now ⟨none, none, RawFlows.arr fl, some aid, some m⟩ = ⟨fl, aid, m⟩
  rw [normalize_arr]
  have hdef' : (fl.any fun flow => flow.isDefault) = true := hdef
  rw [if_pos hdef']
  have hX : (if activeIdInvalid (some aid) (fl.map Flow.id) = true then reassignTarget fl
      else (some aid).getD "") = aid := by
    by_cases hc : activeIdInvalid (some aid) (fl.map Flow.id) = true
    · rw [if_pos hc]
      rcases hact with hact | hact
      · exact absurd hc (by simp [hact])
      · exact hact.symm
    · rw [if_neg hc]
      rfl
  rw [hX]
  rfl

/-- Every output of `normalize` contains a flow with `isDefault`. -/
theorem normalize_hasDefault (now : String) (d : RawDoc) :
    (normalize now d).flows.any (fun flow => flow.isDefault) = true := by
  rcases d with ⟨g, p, fl, a, m⟩
  rcases fl with _ | _ | flows0
  · rcases g with _ | g <;> rcases p with _ | p <;> rfl
  · rcases g with _ | g <;> rcases p with _ | p <;> rfl
  · rw [normalize_arr]
    exact hasDefault_arr now flows0

/-- Every output of `normalize` has an active id that is valid or equal
to the reassignment target of its flow list. -/
theorem normalize_active_ok (now : String) (d : RawDoc) :
    activeIdInvalid (some (normalize now d).activeFlowId)
        ((normalize now d).flows.map Flow.id) = false ∨
      (normalize now d).activeFlowId = reassignTarget (normalize now d).flows := by
  rcases d with ⟨g, p, fl, a, m⟩
  rcases fl with _ | _ | flows0
  · left
    rcases g with _ | g <;> rcases p with _ | p <;> rfl
  · left
    rcases g with _ | g <;> rcases p with _ | p <;> rfl
  · rw [normalize_arr]
    exact active_ok_core a
      (if flows0.any (fun flow => flow.isDefault) then flows0
        else createDefaultFlow now :: flows0)

/-- C3: the load-time migration/normalization is idempotent — feeding its
own (re-serialized) output back through it reproduces that output
exactly, whatever timestamps the two runs stamp. -/
theorem normalize_idempotent (now1 now2 : String) (d : RawDoc) :
    normalize now2 (toRaw (normalize now1 d)) = normalize now1 d :=
  normalize_fixed now2 (normalize now1 d) (normalize_hasDefault now1 d)
    (normalize_active_ok now1 d)

/-- C5: loading a legacy-shaped document (`general` and `prompts` keys
present, no `flows` key) yields a state with exactly one flow, which is
default, carries the legacy prompts and general settings, and is the
active flow. -/
theorem legacy_migration (now : String) (d : RawDoc) (g : GeneralSettings)
    (p : Prompts) (hg : d.general = some g) (hp : d.prompts = some p)
    (hf : d.flows = RawFlows.absent) :
    ∃ f, (normalize now d).flows = [f] ∧ f.isDefault = true ∧
      f.prompts = p ∧ f.generalSettings = g ∧
      (normalize now d).activeFlowId = f.id := by
  rcases d with ⟨g0, p0, fl0, a0, m0⟩
  simp only at hg hp hf
  subst hg
  subst hp
  subst hf
  exact ⟨_, rfl, rfl, rfl, rfl, rfl⟩

/-- Closed witness for C5 on a concrete legacy document. -/
theorem legacy_migration_witness :
    ∃ f, (normalize "t0" ⟨some DEFAULT_GENERAL_SETTINGS, some DEFAULT_PROMPTS,
        RawFlows.absent, none, none⟩).flows = [f] ∧ f.isDefault = true ∧
      f.prompts = DEFAULT_PROMPTS ∧ f.generalSettings = DEFAULT_GENERAL_SETTINGS ∧
      (normalize "t0" ⟨some DEFAULT_GENERAL_SETTINGS, some DEFAULT_PROMPTS,
        RawFlows.absent, none, none⟩).activeFlowId = f.id :=
  legacy_migration "t0" _ _ _ rfl rfl rfl

/-- A non-default flow, used as `flowA` in the orphaned-active-id
scenario. -/
def flowA : Flow :=
  { id := "A"
    name := "Flow A"
    isDefault := false
    description := none
    prompts := DEFAULT_PROMPTS
    generalSettings := DEFAULT_GENERAL_SETTINGS
    createdAt := "t0"
    updatedAt := "t0" }

/-- The document `{ flows: [flowA], activeFlowId: "nonexistent" }`. -/
def orphanDoc : RawDoc :=
  { general := none
    prompts := none
    flows := RawFlows.arr [flowA]
    activeFlowId := some "nonexistent"
    mcp := none }

/-- C6 counterexample: on `{ flows: [flowA], activeFlowId: "nonexistent" }`
with `flowA` not default, "nonexistent" matches no flow id, yet
normalization does NOT reassign `activeFlowId` to `flowA.id` — the
default-flow existence check first prepends a synthesized default flow
and the active id is reassigned to that default flow id instead. -/
theorem orphan_active_not_flowA :
    "nonexistent" ∉ [flowA].map Flow.id ∧
      (normalize "t1" orphanDoc).activeFlowId ≠ flowA.id := by
  constructor
  · simp [flowA]
  · have h : (normalize "t1" orphanDoc).activeFlowId = "default" := rfl
    rw [h]
    simp [flowA]

/-- C6 amended: when the single flow `fA` has `isDefault = true` (so the
default-existence check inserts nothing) and the persisted active id
matches no flow id, normalization reassigns `activeFlowId` to `fA.id`. -/
theorem orphan_active_reassigned (now : String) (fA : Flow) (aid : String)
    (hdef : fA.isDefault = true) (hne : aid ≠ fA.id) :
    (normalize now ⟨none, none, RawFlows.arr [fA], some aid, none⟩).activeFlowId
      = fA.id := by
  rw [normalize_arr]
  have hany : ([fA].any fun flow => flow.isDefault) = true := by simp [hdef]
  simp only [hany, if_true]
  have hc : activeIdInvalid (some aid) ([fA].map Flow.id) = true := by
    simp [activeIdInvalid, hne, Ne.symm hne]
  simp only [hc, if_true]
  simp [reassignTarget, hdef]

/-- Closed witness for the amended C6 on a concrete default flow and the
orphaned active id "nonexistent". -/
theorem orphan_active_reassigned_witness :
    (normalize "t1" ⟨none, none, RawFlows.arr [createDefaultFlow "t0"],
      some "nonexistent", none⟩).activeFlowId = (createDefaultFlow "t0").id :=
  orphan_active_reassigned "t1" (createDefaultFlow "t0") "nonexistent" rfl
    (by simp [createDefaultFlow])

/-- A JSON value, for modelling `JSON.stringify` output structurally. -/
inductive Json where
  | null : Json
  | bool (b : Bool) : Json
  | num (n : Int) : Json
  | str (s : String) : Json
  | arr (items : List Json) : Json
  | obj (fields : List (String × Json)) : Json

/-- The string literal of a `reportStyle` value. -/
def ReportStyle.toLit : ReportStyle → String
  | .academic => "academic"
  | .popular_science => "popular_science"
  | .news => "news"
  | .social_media => "social_media"

/-- `JSON.stringify` of a `prompts` record. -/
def serializePrompts (p : Prompts) : Json :=
  .obj [("coordinator", .str p.coordinator), ("planner", .str p.planner),
    ("researcher", .str p.researcher), ("coder", .str p.coder),
    ("reporter", .str p.reporter)]

/-- `JSON.stringify` of a `generalSettings` record. -/
def serializeGeneralSettings (g : GeneralSettings) : Json :=
  .obj [("autoAcceptedPlan", .bool g.autoAcceptedPlan),
    ("enableDeepThinking", .bool g.enableDeepThinking),
    ("enableBackgroundInvestigation", .bool g.enableBackgroundInvestigation),
    ("maxPlanIterations", .num g.maxPlanIterations),
    ("maxStepNum", .num g.maxStepNum),
    ("maxSearchResults", .num g.maxSearchResults),
    ("reportStyle", .str g.reportStyle.toLit)]

/-- `JSON.stringify` of a `Flow` (an absent optional `description` key is
omitted, as `JSON.stringify` drops `undefined` properties). -/
def serializeFlow (f : Flow) : Json :=
  .obj ([("id", .str f.id), ("name", .str f.name), ("isDefault", .bool f.isDefault)]
    ++ (match f.description with
        | some d => [("description", .str d)]
        | none => [])
    ++ [("prompts", serializePrompts f.prompts),
        ("generalSettings", serializeGeneralSettings f.generalSettings),
        ("createdAt", .str f.createdAt), ("updatedAt", .str f.updatedAt)])

/-- `JSON.stringify` of an MCP server metadata record. -/
def serializeMCPServer (sv : MCPServerMetadata) : Json :=
  .obj [("name", .str sv.name), ("transport", .str sv.transport),
    ("command", .str sv.command), ("args", .arr (sv.args.map Json.str)),
    ("url", .str sv.url),
    ("env", .obj (sv.env.map (fun kv => (kv.1, Json.str kv.2)))),
    ("enabled", .bool sv.enabled),
    ("tools", .arr (sv.tools.map (fun t =>
      .obj [("name", .str t.name), ("description", .str t.description)]))),
    ("createdAt", .str sv.createdAt), ("updatedAt", .str sv.updatedAt)]

/-- The document written by `saveSettings`:
`JSON.stringify(useSettingsStore.getState())`, whose keys follow the
`SettingsState` shape `{ flows, activeFlowId, mcp: { servers } }`. -/
def savedSettingsDocument (s : SettingsState) : Json :=
  .obj [("flows", .arr (s.flows.map serializeFlow)),
    ("activeFlowId", .str s.activeFlowId),
    ("mcp", .obj [("servers", .arr (s.mcp.servers.map serializeMCPServer))])]

/-- The top-level keys of a JSON object. -/
def Json.keys : Json → List String
  | .obj fields => fields.map Prod.fst
  | _ => []

/-- Field lookup in a JSON object. -/
def Json.getField (j : Json) (k : String) : Option Json :=
  match j with
  | .obj fields => (fields.find? (fun kv => kv.1 == k)).map Prod.snd
  | _ => none

/-- C8 counterexample: the document persisted for the default settings
state has no `modelParameters` key (and its `mcp` object has no
`preRegistered` key), so the persisted root object does not contain the
keys the claim requires. -/
theorem savedSettingsDocument_no_modelParameters :
    "modelParameters" ∉ (savedSettingsDocument (DEFAULT_SETTINGS "t0")).keys ∧
      ∃ m, (savedSettingsDocument (DEFAULT_SETTINGS "t0")).getField "mcp" = some m ∧
        "preRegistered" ∉ m.keys := by
  constructor
  · simp [savedSettingsDocument, Json.keys]
  · refine ⟨_, rfl, ?_⟩
    simp [Json.keys]

/-- C8 amended: every document written by `saveSettings` is a root object
whose keys are exactly `flows`, `activeFlowId` and `mcp`, and whose `mcp`
object contains exactly the key `servers` (no `modelParameters`, no
`preRegistered`). -/
theorem savedSettingsDocument_keys (s : SettingsState) :
    (savedSettingsDocument s).keys = ["flows", "activeFlowId", "mcp"] ∧
      ∃ m, (savedSettingsDocument s).getField "mcp" = some m ∧
        m.keys = ["servers"] :=
  ⟨rfl, ⟨_, rfl, rfl⟩⟩

/-- Modelled from the spec: the `resolve-service-url` module is not under
src/, only its callers are; per the spec it addresses the remote settings
store endpoint for a given path. -/
def resolveServiceURL (path : String) : String :=
  "/api/" ++ path

/-- An HTTP request as built by the settings API client (`fetch` call
shape: URL, method, headers, optional JSON body). -/
structure HttpRequest where
  url : String
  method : String
  headers : List (String × String)
  body : Option Json

/-- The header record both settings requests build: `Content-Type`
always, and `Authorization: Bearer <token>` exactly when
`getAccessToken()` produced a token. -/
def settingsRequestHeaders (token : Option String) : List (String × String) :=
  [("Content-Type", "application/json")] ++
    (match token with
     | some t => [("Authorization", "Bearer " ++ t)]
     | none => [])

/-- The request built by `fetchSettings`, as a function of the token the
identity provider session yielded. -/
def fetchSettingsRequest (token : Option String) : HttpRequest :=
  { url := resolveServiceURL "settings"
    method := "GET"
    headers := settingsRequestHeaders token
    body := none }

/-- The request built by `updateSettings`. -/
def updateSettingsRequest (token : Option String) (settings : Json) : HttpRequest :=
  { url := resolveServiceURL "settings"
    method := "POST"
    headers := settingsRequestHeaders token
    body := some settings }

/-- Whether a request carries an `Authorization` header. -/
def hasAuthHeader (r : HttpRequest) : Bool :=
  r.headers.any (fun kv => kv.1 == "Authorization")

/-- C9: both settings requests carry an `Authorization` header exactly
when the identity-provider session yielded an access token, the header
value is `Bearer <token>`, and the request is built (with its URL and
method) in the token-less case as well. -/
theorem settings_requests_auth (token : Option String) (settings : Json) :
    hasAuthHeader (fetchSettingsRequest token) = token.isSome ∧
    hasAuthHeader (updateSettingsRequest token settings) = token.isSome ∧
    (fetchSettingsRequest token).headers.filter (fun kv => kv.1 == "Authorization") =
      (match token with
       | some t => [("Authorization", "Bearer " ++ t)]
       | none => []) ∧
    (updateSettingsRequest token settings).headers.filter
        (fun kv => kv.1 == "Authorization") =
      (match token with
       | some t => [("Authorization", "Bearer " ++ t)]
       | none => []) ∧
    (fetchSettingsRequest token).url = resolveServiceURL "settings" ∧
    (fetchSettingsRequest token).method = "GET" ∧
    (updateSettingsRequest token settings).url = resolveServiceURL "settings" ∧
    (updateSettingsRequest token settings).method = "POST" := by
  rcases token with _ | t <;>
    refine ⟨?_, ?_, ?_, ?_, rfl, rfl, rfl, rfl⟩ <;>
      simp [hasAuthHeader, fetchSettingsRequest, updateSettingsRequest,
        settingsRequestHeaders]

/-- Modelled from the spec: `SimpleMCPServerMetadata` of the absent
`../mcp` module — the transport-specific descriptor built by
`getChatStreamSettings`: a local-process shape (name, transport, env,
command, args) or a network shape (name, transport, env, url). -/
inductive SimpleMCPServerMetadata where
  | stdio (name : String) (transport : String) (env : List (String × String))
      (command : String) (args : List String)
  | remote (name : String) (transport : String) (env : List (String × String))
      (url : String)
deriving DecidableEq, Repr

/-- One value of the `servers` record sent to the chat stream:
`{ ...server, enabled_tools, add_to_agents }`. -/
structure ChatStreamMCPServerEntry where
  server : SimpleMCPServerMetadata
  enabled_tools : List String
  add_to_agents : List String
deriving DecidableEq, Repr

/-- The `mcpSettings` object: a JS object keyed by server name, embedded
as an ordered association list. -/
structure McpSettings where
  servers : List (String × ChatStreamMCPServerEntry)
deriving DecidableEq, Repr

/-- The return value of `getChatStreamSettings` (the spread of the active
flow general settings is kept as a nested field). -/
structure ChatStreamSettings where
  generalSettings : GeneralSettings
  mcpSettings : Option McpSettings
  customPrompts : Prompts
deriving DecidableEq, Repr

/-- The `if (transport === "stdio")` server construction of
`getChatStreamSettings`. -/
def simpleServerOf (cur : MCPServerMetadata) : SimpleMCPServerMetadata :=
  if cur.transport == "stdio" then
    .stdio cur.name cur.transport cur.env cur.command cur.args
  else
    .remote cur.name cur.transport cur.env cur.url

/-- The object value `{ ...server, enabled_tools: tools.map(name),
add_to_agents: ["researcher"] }` stored under the server name. -/
def mcpEntryOf (cur : MCPServerMetadata) : ChatStreamMCPServerEntry :=
  { server := simpleServerOf cur
    enabled_tools := cur.tools.map (fun tool => tool.name)
    add_to_agents := ["researcher"] }

/-- JS object-spread update `{ ...acc, [k]: v }`: an existing key keeps
its position and gets the new value, a new key is appended. -/
def jsObjSet (kvs : List (String × ChatStreamMCPServerEntry)) (k : String)
    (v : ChatStreamMCPServerEntry) : List (String × ChatStreamMCPServerEntry) :=
  if kvs.any (fun kv => kv.1 == k) then
    kvs.map (fun kv => if kv.1 == k then (k, v) else kv)
  else kvs ++ [(k, v)]

/-- `getChatStreamSettings`: the projection exported to the chat backend,
built from the active flow plus the enabled MCP servers. -/
def getChatStreamSettings (now : String) (s : SettingsState) : ChatStreamSettings :=
  let activeFlow := getActiveFlow now s
  let mcpServers := s.mcp.servers.filter (fun server => server.enabled)
  let mcpSettings : Option McpSettings :=
    if mcpServers.length > 0 then
      some { servers :=
               mcpServers.foldl (fun acc cur => jsObjSet acc cur.name (mcpEntryOf cur)) [] }
    else none
  { generalSettings := activeFlow.generalSettings
    mcpSettings := mcpSettings
    customPrompts := activeFlow.prompts }

/-- Spreading a key absent from the object appends it. -/
theorem jsObjSet_fresh (kvs : List (String × ChatStreamMCPServerEntry))
    (k : String) (v : ChatStreamMCPServerEntry)
    (h : ∀ kv ∈ kvs, kv.1 ≠ k) : jsObjSet kvs k v = kvs ++ [(k, v)] := by
  unfold jsObjSet
  rw [if_neg]
  intro hany
  rw [List.any_eq_true] at hany
  obtain ⟨kv, hkv, hk⟩ := hany
  exact h kv hkv (by simpa using hk)

/-- Folding the reduce body over servers with pairwise-distinct names
appends one entry per server, in order, keyed by name. -/
theorem foldl_jsObjSet (l : List MCPServerMetadata)
    (acc : List (String × ChatStreamMCPServerEntry))
    (hn : (l.map (fun sv => sv.name)).Nodup)
    (hacc : ∀ kv ∈ acc, ∀ sv ∈ l, kv.1 ≠ sv.name) :
    l.foldl (fun acc cur => jsObjSet acc cur.name (mcpEntryOf cur)) acc =
      acc ++ l.map (fun sv => (sv.name, mcpEntryOf sv)) := by
  induction l generalizing acc with
  | nil => simp
  | cons x xs ih =>
    rw [List.foldl_cons,
      jsObjSet_fresh acc x.name (mcpEntryOf x)
        (fun kv hkv => hacc kv hkv x (List.mem_cons_self x xs))]
    rw [List.map_cons] at hn
    have hn' := List.nodup_cons.mp hn
    rw [ih (acc ++ [(x.name, mcpEntryOf x)]) hn'.2]
    · simp
    · intro kv hkv sv hsv
      rcases List.mem_append.mp hkv with hkv | hkv
      · exact hacc kv hkv sv (List.mem_cons_of_mem x hsv)
      · simp only [List.mem_singleton] at hkv
        subst hkv
        intro heq
        simp only at heq
        apply hn'.1
        rw [heq]
        exact List.mem_map_of_mem (fun sv => sv.name) hsv

/-- C10: `getChatStreamSettings().mcpSettings` is `undefined` exactly when
no MCP server is enabled; otherwise its `servers` object holds exactly
one entry per enabled server, keyed by the server name, whose
`enabled_tools` are all of that server tool names and whose
`add_to_agents` is exactly `["researcher"]`.  Server names are assumed
pairwise distinct among enabled servers (the spec requires names unique
within the account server list). -/
theorem getChatStreamSettings_mcp (now : String) (s : SettingsState)
    (hn : ((s.mcp.servers.filter (fun sv => sv.enabled)).map
      (fun sv => sv.name)).Nodup) :
    ((getChatStreamSettings now s).mcpSettings =
      if s.mcp.servers.filter (fun sv => sv.enabled) = [] then none
      else some { servers :=
                    (s.mcp.servers.filter (fun sv => sv.enabled)).map
                      (fun sv => (sv.name, mcpEntryOf sv)) }) ∧
    (∀ sv, (mcpEntryOf sv).enabled_tools = sv.tools.map (fun tool => tool.name)) ∧
    (∀ sv, (mcpEntryOf sv).add_to_agents = ["researcher"]) := by
  refine ⟨?_, fun sv => rfl, fun sv => rfl⟩
  simp only [getChatStreamSettings]
  by_cases hnil : s.mcp.servers.filter (fun sv => sv.enabled) = []
  · rw [if_pos hnil, hnil]
    simp
  · rw [if_neg hnil, if_pos (List.length_pos.mpr hnil)]
    rw [foldl_jsObjSet _ [] hn (by simp)]
    simp

/-- A concrete enabled MCP server for the C10 witness. -/
def mcpServerX : MCPServerMetadata :=
  { name := "search"
    transport := "stdio"
    command := "run-search"
    args := ["--fast"]
    url := ""
    env := []
    enabled := true
    tools := [{ name := "web_search", description := "Search the web" }]
    createdAt := "t0"
    updatedAt := "t0" }

/-- A settings state holding one enabled MCP server. -/
def stateWithMcp : SettingsState :=
  { flows := [createDefaultFlow "t0"]
    activeFlowId := "default"
    mcp := { servers := [mcpServerX] } }

/-- Closed witness for C10 on a state with one enabled server. -/
theorem getChatStreamSettings_mcp_witness :
    (getChatStreamSettings "t1" stateWithMcp).mcpSettings =
      if stateWithMcp.mcp.servers.filter (fun sv => sv.enabled) = [] then none
      else some { servers :=
                    (stateWithMcp.mcp.servers.filter (fun sv => sv.enabled)).map
                      (fun sv => (sv.name, mcpEntryOf sv)) } :=
  (getChatStreamSettings_mcp "t1" stateWithMcp
    (by simp [stateWithMcp, mcpServerX])).1

end DeerFlow
